import Mathlib

/-!
Shallow embedding of the gRPC microservices repository:
a User Service and an Order Service (each with an in-memory `Map` store),
and an Express API Gateway translating REST calls to gRPC calls.

Sources embedded:
- src/services/user-service/server.js   (GetUser, CreateUser, ListUsers)
- src/services/order-service/server.js  (CreateOrder, GetOrder, GetOrdersByUser,
                                         verifyUser dependency call)
- the gateway server (Express routes /api/users, /api/users/:userId,
  /api/orders, /api/orders/:orderId, /api/users/:userId/orders,
  /api/users/:userId/profile, handleGrpcError)

Modelling conventions:
- JavaScript `Map` becomes an association list `List (String × α)` with
  insertion-order `set`/`get`/`values` semantics.
- Numbers arriving in gRPC requests are modelled by `JsNum`: either `NaN`
  or a rational value; JS truthiness (`!x`) of a number is false exactly
  for `NaN` and `0`, of a string exactly for `""`.
- Fresh uuids and `new Date().toISOString()` timestamps are passed in as
  explicit parameters (`fid`, `now`).
- The order service's `verifyUser` gRPC call to the user service either
  fails at transport level (modelled by an `Option String` fault carrying
  the error message, triggering the `catch` branch) or completes against
  the user store.
- Gateway handlers are parameterised by the backend call as a function,
  and additionally return the list of internal gRPC calls they issued,
  so that "no internal call is made" is expressible.
-/

set_option autoImplicit false

namespace MicroGrpc

/-- A JavaScript number as it appears in request fields: `NaN` or a rational. -/
inductive JsNum where
  | nan
  | num (q : ℚ)
  deriving DecidableEq, Repr

/-- JS truthiness of a number: `NaN` and `0` are falsy, everything else truthy. -/
def jsTruthyNum : JsNum → Bool
  | .nan => false
  | .num q => q ≠ 0

/-- JS truthiness of a string: only `""` is falsy. -/
def jsTruthyStr (s : String) : Bool := s ≠ ""

/-- A user record, as built by `CreateUser` in user-service/server.js. -/
structure User where
  id : String
  name : String
  email : String
  created_at : String
  deriving DecidableEq, Repr

/-- An order record, as built by `CreateOrder` in order-service/server.js.
`amount` and `quantity` are stored exactly as they arrived in the request. -/
structure Order where
  id : String
  user_id : String
  product_name : String
  amount : JsNum
  quantity : JsNum
  status : String
  created_at : String
  deriving DecidableEq, Repr

/-- In-memory store: a JS `Map` in insertion order. -/
def Store (α : Type) : Type := List (String × α)

/-- `Map.prototype.get`. -/
def storeGet {α : Type} (s : Store α) (k : String) : Option α :=
  match s with
  | [] => none
  | (k', v) :: rest => if k' = k then some v else storeGet rest k

/-- `Map.prototype.set`: replaces in place if the key exists, else appends. -/
def storeSet {α : Type} (s : Store α) (k : String) (v : α) : Store α :=
  match s with
  | [] => [(k, v)]
  | (k', v') :: rest =>
      if k' = k then (k', v) :: rest else (k', v') :: storeSet rest k v

/-- `Array.from(map.values())`: the values in insertion order. -/
def storeValues {α : Type} (s : Store α) : List α := s.map Prod.snd

/-- `Map.prototype.size` (via list length of the entries). -/
def storeSize {α : Type} (s : Store α) : Nat := s.length

def UserStore : Type := Store User
def OrderStore : Type := Store Order

/-! ### User service (src/services/user-service/server.js) -/

structure GetUserRequest where
  user_id : String
  deriving DecidableEq, Repr

structure CreateUserRequest where
  name : String
  email : String
  deriving DecidableEq, Repr

/-- The shared `{success, message, user}` response of GetUser/CreateUser. -/
structure UserResponse where
  success : Bool
  message : String
  user : Option User
  deriving DecidableEq, Repr

structure ListUsersResponse where
  success : Bool
  message : String
  users : List User
  deriving DecidableEq, Repr

/-- `GetUser` handler: rejects an empty id, then looks the user up;
returns the (unchanged) store alongside the response. -/
def GetUser (req : GetUserRequest) (s : UserStore) : UserResponse × UserStore :=
  if jsTruthyStr req.user_id = false then
    ({ success := false, message := "User ID is required", user := none }, s)
  else
    match storeGet s req.user_id with
    | none => ({ success := false, message := "User not found", user := none }, s)
    | some u => ({ success := true, message := "User found", user := some u }, s)

/-- `CreateUser` handler: rejects missing name/email, else stores a fresh
record built from the request, the fresh uuid `fid` and timestamp `now`. -/
def CreateUser (req : CreateUserRequest) (s : UserStore) (fid now : String) :
    UserResponse × UserStore :=
  if jsTruthyStr req.name = false ∨ jsTruthyStr req.email = false then
    ({ success := false, message := "Name and email are required", user := none }, s)
  else
    let u : User := { id := fid, name := req.name, email := req.email, created_at := now }
    ({ success := true, message := "User created successfully", user := some u },
     storeSet s u.id u)

/-- `ListUsers` handler: always succeeds with all users in insertion order. -/
def ListUsers (s : UserStore) : ListUsersResponse × UserStore :=
  let userList := storeValues s
  ({ success := true,
     message := "Found " ++ toString userList.length ++ " users",
     users := userList }, s)

/-! ### Order service (src/services/order-service/server.js) -/

structure CreateOrderRequest where
  user_id : String
  product_name : String
  amount : JsNum
  quantity : JsNum
  deriving DecidableEq, Repr

structure GetOrderRequest where
  order_id : String
  deriving DecidableEq, Repr

structure GetOrdersByUserRequest where
  user_id : String
  deriving DecidableEq, Repr

/-- The `{success, message, order}` response of CreateOrder/GetOrder. -/
structure OrderResponse where
  success : Bool
  message : String
  order : Option Order
  deriving DecidableEq, Repr

structure OrdersListResponse where
  success : Bool
  message : String
  orders : List Order
  deriving DecidableEq, Repr

/-- `CreateOrder` handler.  Validation rejects any falsy field
(`!user_id || !product_name || !amount || !quantity`).  Then the
`verifyUser` dependency call runs: `depFault = some e` models the gRPC
call itself erroring (the promise rejects and the `catch` branch answers
with the error message); otherwise the call completes against the user
store `ust` and a null `user` in its response means "Invalid User ID".
Only when a user was found is the order built (status `pending`, fresh id
`fid`, timestamp `now`) and written to the order store. -/
def CreateOrder (req : CreateOrderRequest) (depFault : Option String)
    (ust : UserStore) (ost : OrderStore) (fid now : String) :
    OrderResponse × OrderStore :=
  if jsTruthyStr req.user_id = false ∨ jsTruthyStr req.product_name = false ∨
      jsTruthyNum req.amount = false ∨ jsTruthyNum req.quantity = false then
    ({ success := false,
       message := "User ID, Product Name, Amount and Quantity are required",
       order := none }, ost)
  else
    match depFault with
    | some e => ({ success := false, message := e, order := none }, ost)
    | none =>
        match (GetUser { user_id := req.user_id } ust).1.user with
        | none => ({ success := false, message := "Invalid User ID", order := none }, ost)
        | some _ =>
            let o : Order :=
              { id := fid, user_id := req.user_id, product_name := req.product_name,
                amount := req.amount, quantity := req.quantity,
                status := "pending", created_at := now }
            ({ success := true, message := "Order created successfully", order := some o },
             storeSet ost o.id o)

/-- `GetOrder` handler: rejects an empty id, then looks the order up. -/
def GetOrder (req : GetOrderRequest) (s : OrderStore) : OrderResponse × OrderStore :=
  if jsTruthyStr req.order_id = false then
    ({ success := false, message := "Order ID is required", order := none }, s)
  else
    match storeGet s req.order_id with
    | none => ({ success := false, message := "Order not found", order := none }, s)
    | some o =>
        ({ success := true, message := "Order retrieved successfully", order := some o }, s)

/-- `GetOrdersByUser` handler: rejects an empty id, else filters all
orders by owning user id. -/
def GetOrdersByUser (req : GetOrdersByUserRequest) (s : OrderStore) :
    OrdersListResponse × OrderStore :=
  if jsTruthyStr req.user_id = false then
    ({ success := false, message := "User ID is required", orders := [] }, s)
  else
    ({ success := true, message := "Orders retrieved successfully",
       orders := (storeValues s).filter (fun o => o.user_id = req.user_id) }, s)

/-! ### External (JSON body) values and JS numeric coercion -/

/-- A field of an external JSON request body as the gateway sees it:
a string, a number, or absent (`undefined`). -/
inductive ExtVal where
  | str (s : String)
  | num (q : ℚ)
  | undef
  deriving DecidableEq, Repr

/-- JS whitespace skipped by `parseFloat`/`parseInt`. -/
def isJsSpace (c : Char) : Bool :=
  c = ' ' ∨ c = '\t' ∨ c = '\n' ∨ c = '\r' ∨ c = '\x0b' ∨ c = '\x0c'

/-- Decimal digits to a natural number. -/
def digitsToNat (ds : List Char) : Nat :=
  ds.foldl (fun a c => a * 10 + (c.toNat - 48)) 0

/-- Optional leading sign of a JS numeric literal. -/
def parseSign : List Char → Int × List Char
  | '-' :: rest => (-1, rest)
  | '+' :: rest => (1, rest)
  | cs => (1, cs)

/-- JS `parseFloat` on a string (decimal forms: optional sign, integer
digits, optional fraction; exponent forms are not modelled).  No digits at
all yields `NaN`. -/
def parseFloatStr (s : String) : JsNum :=
  let cs := s.data.dropWhile isJsSpace
  let sgn := (parseSign cs).1
  let cs1 := (parseSign cs).2
  let intDigits := cs1.takeWhile Char.isDigit
  let rest1 := cs1.dropWhile Char.isDigit
  let fracDigits :=
    match rest1 with
    | '.' :: r => r.takeWhile Char.isDigit
    | _ => []
  if intDigits.isEmpty ∧ fracDigits.isEmpty then .nan
  else .num ((sgn : ℚ) *
    ((digitsToNat intDigits : ℚ) + (digitsToNat fracDigits : ℚ) / (10 : ℚ) ^ fracDigits.length))

/-- JS `parseInt` (radix 10) on a string: optional sign then digits; no
digits yields `NaN`. -/
def parseIntStr (s : String) : JsNum :=
  let cs := s.data.dropWhile isJsSpace
  let sgn := (parseSign cs).1
  let cs1 := (parseSign cs).2
  let intDigits := cs1.takeWhile Char.isDigit
  if intDigits.isEmpty then .nan
  else .num ((sgn : ℚ) * (digitsToNat intDigits : ℚ))

/-- JS `parseFloat` applied to an external body field: `undefined` gives
`NaN`, a number is passed through, a string is parsed. -/
def parseFloatJs : ExtVal → JsNum
  | .undef => .nan
  | .num q => .num q
  | .str s => parseFloatStr s

/-- JS `parseInt` applied to an external body field: `undefined` gives
`NaN`, a number is stringified and re-parsed (truncation toward zero for
plain decimals), a string is parsed. -/
def parseIntJs : ExtVal → JsNum
  | .undef => .nan
  | .num q => .num (Int.tdiv q.num (q.den : Int) : ℚ)
  | .str s => parseIntStr s

/-! ### JSON responses of the gateway -/

/-- A JSON value, as produced by `res.json` / `JSON.stringify`.
Object fields keep their insertion order. -/
inductive JVal where
  | jnull
  | jbool (b : Bool)
  | jnum (q : ℚ)
  | jstr (s : String)
  | jarr (elems : List JVal)
  | jobj (fields : List (String × JVal))
  deriving Repr

/-- `JSON.stringify` of a JS number: `NaN` serialises as `null`. -/
def encodeJsNum : JsNum → JVal
  | .nan => .jnull
  | .num q => .jnum q

def encodeUser (u : User) : JVal :=
  .jobj [("id", .jstr u.id), ("name", .jstr u.name), ("email", .jstr u.email),
         ("created_at", .jstr u.created_at)]

def encodeOptUser : Option User → JVal
  | none => .jnull
  | some u => encodeUser u

def encodeUserResponse (r : UserResponse) : JVal :=
  .jobj [("success", .jbool r.success), ("message", .jstr r.message),
         ("user", encodeOptUser r.user)]

def encodeListUsersResponse (r : ListUsersResponse) : JVal :=
  .jobj [("success", .jbool r.success), ("message", .jstr r.message),
         ("users", .jarr (r.users.map encodeUser))]

def encodeOrder (o : Order) : JVal :=
  .jobj [("id", .jstr o.id), ("user_id", .jstr o.user_id),
         ("product_name", .jstr o.product_name), ("amount", encodeJsNum o.amount),
         ("quantity", encodeJsNum o.quantity), ("status", .jstr o.status),
         ("created_at", .jstr o.created_at)]

def encodeOptOrder : Option Order → JVal
  | none => .jnull
  | some o => encodeOrder o

def encodeOrderResponse (r : OrderResponse) : JVal :=
  .jobj [("success", .jbool r.success), ("message", .jstr r.message),
         ("order", encodeOptOrder r.order)]

def encodeOrdersListResponse (r : OrdersListResponse) : JVal :=
  .jobj [("success", .jbool r.success), ("message", .jstr r.message),
         ("orders", .jarr (r.orders.map encodeOrder))]

/-- An HTTP response of the gateway: status code and JSON body.
`res.json(x)` with no explicit status is status 200. -/
structure HttpRes where
  status : Nat
  body : JVal

/-- `handleGrpcError`: the single uniform translation of any transport-level
gRPC failure to an external 500 response. -/
def handleGrpcError (e : String) : HttpRes :=
  ⟨500, .jobj [("success", .jbool false), ("message", .jstr "Internal server error"),
               ("error", .jstr e)]⟩

/-- One internal gRPC call issued by the gateway, with its request. -/
inductive GwCall where
  | callGetUser (r : GetUserRequest)
  | callCreateUser (r : CreateUserRequest)
  | callListUsers
  | callCreateOrder (r : CreateOrderRequest)
  | callGetOrder (r : GetOrderRequest)
  | callGetOrdersByUser (r : GetOrdersByUserRequest)
  deriving DecidableEq, Repr

/-! ### Gateway route handlers (the Express app)

Each handler is parameterised by the backend call(s) as a function
returning `Except`: `.error e` is a transport-level gRPC failure with
message `e`, `.ok r` is a completed call with application response `r`.
Each handler also returns the list of internal calls it issued. -/

/-- `POST /api/users`. -/
def gwCreateUser (name email : String)
    (backend : CreateUserRequest → Except String UserResponse) :
    HttpRes × List GwCall :=
  let req : CreateUserRequest := { name := name, email := email }
  (match backend req with
   | .error e => handleGrpcError e
   | .ok r => ⟨200, encodeUserResponse r⟩,
   [.callCreateUser req])

/-- JS `String.prototype.trim`: strip leading and trailing whitespace. -/
def jsTrim (s : String) : String :=
  ⟨((s.data.dropWhile isJsSpace).reverse.dropWhile isJsSpace).reverse⟩

/-- `GET /api/users/:userId`: empty / `"undefined"` / `"null"` /
blank-after-trim ids are rejected locally with a 400 and no internal call;
otherwise the trimmed id is sent to the user service. -/
def gwGetUser (userId : String)
    (backend : GetUserRequest → Except String UserResponse) :
    HttpRes × List GwCall :=
  if jsTruthyStr userId = false ∨ userId = "undefined" ∨ userId = "null" ∨
      jsTrim userId = "" then
    (⟨400, .jobj [("success", .jbool false),
                  ("message", .jstr "Valid user ID is required"),
                  ("user", .jnull)]⟩, [])
  else
    let req : GetUserRequest := { user_id := jsTrim userId }
    (match backend req with
     | .error e => handleGrpcError e
     | .ok r => ⟨200, encodeUserResponse r⟩,
     [.callGetUser req])

/-- `GET /api/users`. -/
def gwListUsers (backend : Unit → Except String ListUsersResponse) :
    HttpRes × List GwCall :=
  (match backend () with
   | .error e => handleGrpcError e
   | .ok r => ⟨200, encodeListUsersResponse r⟩,
   [.callListUsers])

/-- The external body of `POST /api/orders`: amount and quantity are
string-or-numeric. -/
structure CreateOrderBody where
  user_id : String
  product_name : String
  amount : ExtVal
  quantity : ExtVal
  deriving DecidableEq, Repr

/-- The numeric coercion the gateway performs before calling the order
service: `parseFloat(amount)`, `parseInt(quantity)`. -/
def coerceOrderBody (b : CreateOrderBody) : CreateOrderRequest :=
  { user_id := b.user_id, product_name := b.product_name,
    amount := parseFloatJs b.amount, quantity := parseIntJs b.quantity }

/-- `POST /api/orders`: coerce the numeric fields, then pass through. -/
def gwCreateOrder (b : CreateOrderBody)
    (backend : CreateOrderRequest → Except String OrderResponse) :
    HttpRes × List GwCall :=
  let req := coerceOrderBody b
  (match backend req with
   | .error e => handleGrpcError e
   | .ok r => ⟨200, encodeOrderResponse r⟩,
   [.callCreateOrder req])

/-- `GET /api/orders/:orderId`. -/
def gwGetOrder (orderId : String)
    (backend : GetOrderRequest → Except String OrderResponse) :
    HttpRes × List GwCall :=
  let req : GetOrderRequest := { order_id := orderId }
  (match backend req with
   | .error e => handleGrpcError e
   | .ok r => ⟨200, encodeOrderResponse r⟩,
   [.callGetOrder req])

/-- `GET /api/users/:userId/orders`. -/
def gwGetOrdersByUser (userId : String)
    (backend : GetOrdersByUserRequest → Except String OrdersListResponse) :
    HttpRes × List GwCall :=
  let req : GetOrdersByUserRequest := { user_id := userId }
  (match backend req with
   | .error e => handleGrpcError e
   | .ok r => ⟨200, encodeOrdersListResponse r⟩,
   [.callGetOrdersByUser req])

/-- `GET /api/users/:userId/profile`: both internal calls are issued
before either is awaited; `Promise.all` rejects with a transport failure
if either call fails (here the user call's failure is reported first),
otherwise the join inspects the user response first: `success:false`
yields the 404 body regardless of the orders response. -/
def gwProfile (userId : String)
    (ubackend : GetUserRequest → Except String UserResponse)
    (obackend : GetOrdersByUserRequest → Except String OrdersListResponse) :
    HttpRes × List GwCall :=
  let ureq : GetUserRequest := { user_id := userId }
  let oreq : GetOrdersByUserRequest := { user_id := userId }
  let calls : List GwCall := [.callGetUser ureq, .callGetOrdersByUser oreq]
  match ubackend ureq, obackend oreq with
  | .error e, _ => (handleGrpcError e, calls)
  | .ok _, .error e => (handleGrpcError e, calls)
  | .ok ur, .ok orr =>
      if ur.success = false then
        (⟨404, .jobj [("success", .jbool false),
                      ("message", .jstr "User not found")]⟩, calls)
      else
        (⟨200, .jobj [("success", .jbool true),
                      ("message", .jstr "User profile retrieved successfully"),
                      ("data", .jobj
                        [("user", encodeOptUser ur.user),
                         ("orders", .jarr (orr.orders.map encodeOrder)),
                         ("order_count", .jnum (orr.orders.length : ℚ))])]⟩,
         calls)

/-! ### Store lemmas -/

/-- Looking up a key just written returns the written value. -/
theorem storeGet_storeSet_self {α : Type} (s : Store α) (k : String) (v : α) :
    storeGet (storeSet s k v) k = some v := by
  induction s with
  | nil => simp [storeSet, storeGet]
  | cons hd tl ih =>
      obtain ⟨k', v'⟩ := hd
      by_cases h : k' = k <;> simp [storeSet, storeGet, h, ih]

/-- Writing an absent key grows the store by exactly one entry. -/
theorem storeSize_storeSet_absent {α : Type} (s : Store α) (k : String) (v : α)
    (h : storeGet s k = none) : storeSize (storeSet s k v) = storeSize s + 1 := by
  induction s with
  | nil => simp [storeSet, storeSize]
  | cons hd tl ih =>
      obtain ⟨k', v'⟩ := hd
      by_cases hk : k' = k
      · simp [storeGet, hk] at h
      · simp [storeGet, hk] at h
        simp [storeSet, storeSize, hk] at ih ⊢
        exact ih h

/-- Shared shape lemma: `CreateOrder` with any falsy field answers the
required-fields rejection and leaves the order store untouched. -/
theorem CreateOrder_falsy_reject (req : CreateOrderRequest) (depFault : Option String)
    (ust : UserStore) (ost : OrderStore) (fid now : String)
    (h : jsTruthyStr req.user_id = false ∨ jsTruthyStr req.product_name = false ∨
         jsTruthyNum req.amount = false ∨ jsTruthyNum req.quantity = false) :
    CreateOrder req depFault ust ost fid now =
      ({ success := false,
         message := "User ID, Product Name, Amount and Quantity are required",
         order := none }, ost) := by
  unfold CreateOrder
  rw [if_pos h]

/-! ### Claim theorems -/

/-- C1: a `CreateOrder` invocation whose (otherwise valid) `userId` is
absent from the user store, and whose `GetUser` dependency call completes
without transport fault, returns `success:false` with message
`"Invalid User ID"` and leaves the order store unchanged — no order is
persisted for a non-existent user. -/
theorem createOrder_absent_user (req : CreateOrderRequest) (ust : UserStore)
    (ost : OrderStore) (fid now : String)
    (h1 : jsTruthyStr req.user_id = true) (h2 : jsTruthyStr req.product_name = true)
    (h3 : jsTruthyNum req.amount = true) (h4 : jsTruthyNum req.quantity = true)
    (h5 : storeGet ust req.user_id = none) :
    CreateOrder req none ust ost fid now =
      ({ success := false, message := "Invalid User ID", order := none }, ost) := by
  unfold CreateOrder GetUser
  simp [h1, h2, h3, h4, h5]

theorem createOrder_absent_user_witness :
    CreateOrder { user_id := "u1", product_name := "Widget",
                  amount := .num 5, quantity := .num 2 } none [] [] "o1" "t1" =
      ({ success := false, message := "Invalid User ID", order := none }, []) :=
  createOrder_absent_user
    { user_id := "u1", product_name := "Widget", amount := .num 5, quantity := .num 2 }
    [] [] "o1" "t1" (by decide) (by decide) (by decide) (by decide) (by decide)

/-- C2: a `CreateOrder` invocation with truthy fields whose `userId` is
present in the user store, whose dependency call completes, and whose
fresh id is not already an order key, grows the order store by exactly
one, and the returned order has `success:true`, status `"pending"` and
the given `userId` as its owning-user identifier. -/
theorem createOrder_valid_user (req : CreateOrderRequest) (u : User) (ust : UserStore)
    (ost : OrderStore) (fid now : String)
    (h1 : jsTruthyStr req.user_id = true) (h2 : jsTruthyStr req.product_name = true)
    (h3 : jsTruthyNum req.amount = true) (h4 : jsTruthyNum req.quantity = true)
    (h5 : storeGet ust req.user_id = some u) (h6 : storeGet ost fid = none) :
    (CreateOrder req none ust ost fid now).1.success = true ∧
    (CreateOrder req none ust ost fid now).1.order.map Order.status = some "pending" ∧
    (CreateOrder req none ust ost fid now).1.order.map Order.user_id = some req.user_id ∧
    storeSize (CreateOrder req none ust ost fid now).2 = storeSize ost + 1 := by
  unfold CreateOrder GetUser
  simp [h1, h2, h3, h4, h5]
  exact storeSize_storeSet_absent ost fid _ h6

theorem createOrder_valid_user_witness :
    ((CreateOrder { user_id := "u1", product_name := "Widget",
                    amount := .num 5, quantity := .num 2 } none
        [("u1", { id := "u1", name := "Alex", email := "alex@example.com",
                  created_at := "t0" })] [] "o1" "t1").1.success = true) ∧
    ((CreateOrder { user_id := "u1", product_name := "Widget",
                    amount := .num 5, quantity := .num 2 } none
        [("u1", { id := "u1", name := "Alex", email := "alex@example.com",
                  created_at := "t0" })] [] "o1" "t1").1.order.map Order.status
      = some "pending") ∧
    ((CreateOrder { user_id := "u1", product_name := "Widget",
                    amount := .num 5, quantity := .num 2 } none
        [("u1", { id := "u1", name := "Alex", email := "alex@example.com",
                  created_at := "t0" })] [] "o1" "t1").1.order.map Order.user_id
      = some "u1") ∧
    storeSize (CreateOrder { user_id := "u1", product_name := "Widget",
                             amount := .num 5, quantity := .num 2 } none
        [("u1", { id := "u1", name := "Alex", email := "alex@example.com",
                  created_at := "t0" })] [] "o1" "t1").2 = 0 + 1 :=
  createOrder_valid_user
    { user_id := "u1", product_name := "Widget", amount := .num 5, quantity := .num 2 }
    { id := "u1", name := "Alex", email := "alex@example.com", created_at := "t0" }
    [("u1", { id := "u1", name := "Alex", email := "alex@example.com", created_at := "t0" })]
    [] "o1" "t1" (by decide) (by decide) (by decide) (by decide) (by decide) (by decide)

/-- C3 counterexample: a negative amount is NOT rejected by `CreateOrder`
field validation.  With an existing user and request amount `-1`, the
call succeeds and an order IS stored, refuting the claim that
non-positive amounts are rejected with `success:false` and no order
stored. -/
theorem createOrder_negative_amount_accepted :
    ((CreateOrder { user_id := "u1", product_name := "Widget",
                    amount := .num (-1), quantity := .num 2 } none
        [("u1", { id := "u1", name := "Alex", email := "alex@example.com",
                  created_at := "t0" })] [] "o1" "t1").1.success = true) ∧
    storeSize (CreateOrder { user_id := "u1", product_name := "Widget",
                             amount := .num (-1), quantity := .num 2 } none
        [("u1", { id := "u1", name := "Alex", email := "alex@example.com",
                  created_at := "t0" })] [] "o1" "t1").2 = 1 := by
  constructor <;> rfl

/-- C3 amended: `CreateOrder` fails with the required-fields rejection
(`success:false`, no order stored) exactly when a field is falsy —
missing, empty, zero or `NaN`.  Negative (non-zero) amounts and
quantities pass this validation. -/
theorem createOrder_falsy_fields_rejected (req : CreateOrderRequest)
    (depFault : Option String) (ust : UserStore) (ost : OrderStore) (fid now : String)
    (h : jsTruthyStr req.user_id = false ∨ jsTruthyStr req.product_name = false ∨
         jsTruthyNum req.amount = false ∨ jsTruthyNum req.quantity = false) :
    CreateOrder req depFault ust ost fid now =
      ({ success := false,
         message := "User ID, Product Name, Amount and Quantity are required",
         order := none }, ost) :=
  CreateOrder_falsy_reject req depFault ust ost fid now h

theorem createOrder_falsy_fields_rejected_witness :
    CreateOrder { user_id := "u1", product_name := "Widget",
                  amount := .nan, quantity := .num 2 } none [] [] "o1" "t1" =
      ({ success := false,
         message := "User ID, Product Name, Amount and Quantity are required",
         order := none }, []) :=
  createOrder_falsy_fields_rejected
    { user_id := "u1", product_name := "Widget", amount := .nan, quantity := .num 2 }
    none [] [] "o1" "t1" (by decide)

/-- C5: for non-empty name and email (and a non-empty generated id),
`CreateUser` followed by `GetUser` with the returned identifier yields
the very same record in all fields. -/
theorem createUser_then_getUser (name email fid now : String) (s : UserStore)
    (h1 : jsTruthyStr name = true) (h2 : jsTruthyStr email = true)
    (h3 : jsTruthyStr fid = true) :
    (CreateUser { name := name, email := email } s fid now).1.user =
      some { id := fid, name := name, email := email, created_at := now } ∧
    (GetUser { user_id := fid }
        (CreateUser { name := name, email := email } s fid now).2).1 =
      { success := true, message := "User found",
        user := some { id := fid, name := name, email := email, created_at := now } } := by
  unfold CreateUser GetUser
  simp [h1, h2, h3, storeGet_storeSet_self]

theorem createUser_then_getUser_witness :
    ((CreateUser { name := "Alex", email := "alex@example.com" } [] "u1" "t0").1.user =
      some { id := "u1", name := "Alex", email := "alex@example.com", created_at := "t0" }) ∧
    (GetUser { user_id := "u1" }
        (CreateUser { name := "Alex", email := "alex@example.com" } [] "u1" "t0").2).1 =
      { success := true, message := "User found",
        user := some { id := "u1", name := "Alex", email := "alex@example.com",
                       created_at := "t0" } } :=
  createUser_then_getUser "Alex" "alex@example.com" "u1" "t0" []
    (by decide) (by decide) (by decide)

/-- C9: the read operations `GetUser`, `ListUsers`, `GetOrder` and
`GetOrdersByUser` return their store unchanged, on every input — so any
number of repeated calls leaves both stores as they were. -/
theorem read_ops_preserve_stores :
    (∀ (req : GetUserRequest) (s : UserStore), (GetUser req s).2 = s) ∧
    (∀ (s : UserStore), (ListUsers s).2 = s) ∧
    (∀ (req : GetOrderRequest) (s : OrderStore), (GetOrder req s).2 = s) ∧
    (∀ (req : GetOrdersByUserRequest) (s : OrderStore), (GetOrdersByUser req s).2 = s) := by
  refine ⟨fun req s => ?_, fun s => rfl, fun req s => ?_, fun req s => ?_⟩
  · unfold GetUser
    split
    · rfl
    · split <;> rfl
  · unfold GetOrder
    split
    · rfl
    · split <;> rfl
  · unfold GetOrdersByUser
    split <;> rfl

/-- C4: on the composite profile route, for any `userId` absent from the
user store, the gateway responds 404 `{success:false, message:"User not
found"}` whatever the (transport-successful) orders call returned; both
internal calls are issued and joined. -/
theorem profile_absent_user_404 (userId : String) (ust : UserStore)
    (ores : OrdersListResponse)
    (h : storeGet ust userId = none) :
    gwProfile userId (fun r => .ok (GetUser r ust).1) (fun _ => .ok ores) =
      (⟨404, .jobj [("success", .jbool false), ("message", .jstr "User not found")]⟩,
       [.callGetUser { user_id := userId },
        .callGetOrdersByUser { user_id := userId }]) := by
  unfold gwProfile GetUser
  by_cases h0 : jsTruthyStr userId = false <;> simp [h0, h]

theorem profile_absent_user_404_witness :
    gwProfile "zz" (fun r => .ok (GetUser r []).1)
        (fun _ => .ok { success := true, message := "Orders retrieved successfully",
                        orders := [] }) =
      (⟨404, .jobj [("success", .jbool false), ("message", .jstr "User not found")]⟩,
       [.callGetUser { user_id := "zz" },
        .callGetOrdersByUser { user_id := "zz" }]) :=
  profile_absent_user_404 "zz" []
    { success := true, message := "Orders retrieved successfully", orders := [] }
    (by decide)

/-- C6: a get-user request whose path id is empty, `"undefined"`,
`"null"` or blank after trimming gets a local 400 body
`{success:false, message:"Valid user ID is required", user:null}` and the
gateway issues no internal call. -/
theorem gwGetUser_local_reject (userId : String)
    (backend : GetUserRequest → Except String UserResponse)
    (h : userId = "" ∨ userId = "undefined" ∨ userId = "null" ∨ jsTrim userId = "") :
    gwGetUser userId backend =
      (⟨400, .jobj [("success", .jbool false),
                    ("message", .jstr "Valid user ID is required"),
                    ("user", .jnull)]⟩, []) := by
  unfold gwGetUser
  have h' : jsTruthyStr userId = false ∨ userId = "undefined" ∨ userId = "null" ∨
      jsTrim userId = "" := by
    rcases h with h | h | h | h
    · left; simp [jsTruthyStr, h]
    · right; left; exact h
    · right; right; left; exact h
    · right; right; right; exact h
  rw [if_pos h']

theorem gwGetUser_local_reject_witness :
    gwGetUser "undefined" (fun _ => .error "unreachable") =
      (⟨400, .jobj [("success", .jbool false),
                    ("message", .jstr "Valid user ID is required"),
                    ("user", .jnull)]⟩, []) :=
  gwGetUser_local_reject "undefined" (fun _ => .error "unreachable")
    (by decide)

/-- C7: every transport-level gRPC failure reaching the gateway, on every
route (including either leg of the composite profile fan-out), produces
the single uniform 500 response `handleGrpcError e` =
`{success:false, message:"Internal server error", error:e}`, which does
not name the failing backend. -/
theorem gw_uniform_500 (e : String) :
    (∀ (name email : String),
      (gwCreateUser name email (fun _ => .error e)).1 = handleGrpcError e) ∧
    (∀ (userId : String),
      ¬(jsTruthyStr userId = false ∨ userId = "undefined" ∨ userId = "null" ∨
          jsTrim userId = "") →
      (gwGetUser userId (fun _ => .error e)).1 = handleGrpcError e) ∧
    ((gwListUsers (fun _ => .error e)).1 = handleGrpcError e) ∧
    (∀ (b : CreateOrderBody),
      (gwCreateOrder b (fun _ => .error e)).1 = handleGrpcError e) ∧
    (∀ (orderId : String),
      (gwGetOrder orderId (fun _ => .error e)).1 = handleGrpcError e) ∧
    (∀ (userId : String),
      (gwGetOrdersByUser userId (fun _ => .error e)).1 = handleGrpcError e) ∧
    (∀ (userId : String)
       (ob : GetOrdersByUserRequest → Except String OrdersListResponse),
      (gwProfile userId (fun _ => .error e) ob).1 = handleGrpcError e) ∧
    (∀ (userId : String) (ur : UserResponse),
      (gwProfile userId (fun _ => .ok ur) (fun _ => .error e)).1 =
        handleGrpcError e) := by
  refine ⟨fun name email => rfl, fun userId h => ?_, rfl, fun b => rfl,
    fun orderId => rfl, fun userId => rfl, fun userId ob => rfl,
    fun userId ur => rfl⟩
  unfold gwGetUser
  rw [if_neg h]

theorem gw_uniform_500_witness :
    (gwGetUser "u1" (fun _ => .error "14 UNAVAILABLE: No connection established")).1 =
      handleGrpcError "14 UNAVAILABLE: No connection established" :=
  (gw_uniform_500 "14 UNAVAILABLE: No connection established").2.1 "u1" (by decide)

/-- C8: the gateway's create-order route coerces the string-or-numeric
amount/quantity with `parseFloat`/`parseInt` before the internal call
(the issued call carries the coerced request), and when either coercion
yields `NaN` the composed call ends in the order service's
InvalidArgument rejection — `success:false` and no order written. -/
theorem gwCreateOrder_coercion_failure (b : CreateOrderBody) (ust : UserStore)
    (ost : OrderStore) (fid now : String)
    (h : parseFloatJs b.amount = .nan ∨ parseIntJs b.quantity = .nan) :
    gwCreateOrder b (fun r => .ok (CreateOrder r none ust ost fid now).1) =
      (⟨200, encodeOrderResponse
         { success := false,
           message := "User ID, Product Name, Amount and Quantity are required",
           order := none }⟩,
       [.callCreateOrder (coerceOrderBody b)]) ∧
    (CreateOrder (coerceOrderBody b) none ust ost fid now).2 = ost := by
  have hfalsy : jsTruthyStr (coerceOrderBody b).user_id = false ∨
      jsTruthyStr (coerceOrderBody b).product_name = false ∨
      jsTruthyNum (coerceOrderBody b).amount = false ∨
      jsTruthyNum (coerceOrderBody b).quantity = false := by
    rcases h with h | h
    · right; right; left; simp [coerceOrderBody, h, jsTruthyNum]
    · right; right; right; simp [coerceOrderBody, h, jsTruthyNum]
  have hco := CreateOrder_falsy_reject (coerceOrderBody b) none ust ost fid now hfalsy
  constructor
  · unfold gwCreateOrder
    simp [hco]
  · rw [hco]

theorem gwCreateOrder_coercion_failure_witness :
    (gwCreateOrder { user_id := "u1", product_name := "Widget",
                     amount := .str "abc", quantity := .num 2 }
        (fun r => .ok (CreateOrder r none [] [] "o1" "t1").1) =
      (⟨200, encodeOrderResponse
         { success := false,
           message := "User ID, Product Name, Amount and Quantity are required",
           order := none }⟩,
       [.callCreateOrder (coerceOrderBody
         { user_id := "u1", product_name := "Widget",
           amount := .str "abc", quantity := .num 2 })])) ∧
    (CreateOrder (coerceOrderBody
         { user_id := "u1", product_name := "Widget",
           amount := .str "abc", quantity := .num 2 }) none [] [] "o1" "t1").2 = [] :=
  gwCreateOrder_coercion_failure
    { user_id := "u1", product_name := "Widget",
      amount := .str "abc", quantity := .num 2 }
    [] [] "o1" "t1" (by decide)

/-- C10: on each single-backend pass-through route (create user, list
users, create order, get order, list orders by user), any completed
backend response — including an application-level `success:false` one —
is forwarded verbatim as the body with status 200; the get-user route
likewise forwards completed responses with status 200 once its local
validation passes (400 arises only from that local validation, 500 only
from transport faults). -/
theorem gw_passthrough_200 :
    (∀ (name email : String) (r : UserResponse),
      gwCreateUser name email (fun _ => .ok r) =
        (⟨200, encodeUserResponse r⟩,
         [.callCreateUser { name := name, email := email }])) ∧
    (∀ (r : ListUsersResponse),
      gwListUsers (fun _ => .ok r) =
        (⟨200, encodeListUsersResponse r⟩, [.callListUsers])) ∧
    (∀ (b : CreateOrderBody) (r : OrderResponse),
      gwCreateOrder b (fun _ => .ok r) =
        (⟨200, encodeOrderResponse r⟩, [.callCreateOrder (coerceOrderBody b)])) ∧
    (∀ (orderId : String) (r : OrderResponse),
      gwGetOrder orderId (fun _ => .ok r) =
        (⟨200, encodeOrderResponse r⟩, [.callGetOrder { order_id := orderId }])) ∧
    (∀ (userId : String) (r : OrdersListResponse),
      gwGetOrdersByUser userId (fun _ => .ok r) =
        (⟨200, encodeOrdersListResponse r⟩,
         [.callGetOrdersByUser { user_id := userId }])) ∧
    (∀ (userId : String) (r : UserResponse),
      ¬(jsTruthyStr userId = false ∨ userId = "undefined" ∨ userId = "null" ∨
          jsTrim userId = "") →
      gwGetUser userId (fun _ => .ok r) =
        (⟨200, encodeUserResponse r⟩,
         [.callGetUser { user_id := jsTrim userId }])) := by
  refine ⟨fun name email r => rfl, fun r => rfl, fun b r => rfl,
    fun orderId r => rfl, fun userId r => rfl, fun userId r h => ?_⟩
  unfold gwGetUser
  rw [if_neg h]

theorem gw_passthrough_200_witness :
    gwGetUser "u1" (fun _ => .ok { success := false, message := "User not found",
                                   user := none }) =
      (⟨200, encodeUserResponse { success := false, message := "User not found",
                                  user := none }⟩,
       [.callGetUser { user_id := jsTrim "u1" }]) :=
  gw_passthrough_200.2.2.2.2.2 "u1"
    { success := false, message := "User not found", user := none } (by decide)

end MicroGrpc
